import Mathlib

/-!
Shallow embedding of the kinetic-eGFR calculation engine (Chen formula)
from `src/streamlit_app.py` (the variant in `src/app.py` differs only in
error-tag names and message strings).  Python floats are modelled as exact
rationals `ℚ`; Python `None` as `Option.none`; `datetime` values as rational
seconds, so that `(t2 - t1).total_seconds()` becomes plain subtraction.
-/

/-- `UMOL_PER_MGDL = 88.4  # µmol/L per mg/dL` -/
def UMOL_PER_MGDL : ℚ := 88.4

/-- `def to_mgdl(x, unit): return None if x is None else (x if unit == "mg/dL" else x / UMOL_PER_MGDL)` -/
def to_mgdl (x : Option ℚ) (unit : String) : Option ℚ :=
  match x with
  | none => none
  | some v => some (if unit = "mg/dL" then v else v / UMOL_PER_MGDL)

/-- Patient sex, the `"Male"`/`"Female"` strings of the source. -/
inductive Sex where
  | Male : Sex
  | Female : Sex
deriving DecidableEq, Repr

/-- `def cockcroft_gault(age, sex, wt, scr)` from `src/streamlit_app.py`:
returns `None` when any of age/weight/creatinine is missing or `≤ 0`,
otherwise `((140 - age) * wt) / (72 * scr)`, times `0.85` for Female. -/
def cockcroft_gault (age : Option ℚ) (sex : Sex) (wt scr : Option ℚ) : Option ℚ :=
  match age, wt, scr with
  | some a, some w, some s =>
    if a ≤ 0 ∨ w ≤ 0 ∨ s ≤ 0 then none
    else
      let v := ((140 - a) * w) / (72 * s)
      some (if sex = Sex.Female then v * 0.85 else v)
  | _, _, _ => none

/-- Error tags of `chen_ke_gfr` in `src/streamlit_app.py`:
`"bad_input"`, `"bad_dt"`, `"bad_param"` (the `src/app.py` variant calls
them `"missing"`/`"nonpositive"`, `"nonpositive_dt"`, `"bad_params"`). -/
inductive ErrKind where
  | badInput : ErrKind
  | badDt : ErrKind
  | badParam : ErrKind
deriving DecidableEq, Repr

/-- The tuple `(ke, (d_scr, dt_h), err)` returned by `chen_ke_gfr`. -/
structure KineticResult where
  ke : Option ℚ
  dScr : Option ℚ
  dtH : Option ℚ
  err : Option ErrKind
deriving DecidableEq, Repr

/-- `def chen_ke_gfr(scr_ss, crcl_ss, scr1, t1, scr2, t2, max_dscr_day=1.5)`
from `src/streamlit_app.py`.  Timestamps are rational seconds, so
`dt_h = (t2 - t1).total_seconds() / 3600.0` is `(v - u) / 3600`. -/
def chen_ke_gfr (scr_ss crcl_ss scr1 t1 scr2 t2 : Option ℚ)
    (max_dscr_day : ℚ := 1.5) : KineticResult :=
  match scr_ss, crcl_ss, scr1, t1, scr2, t2 with
  | some a, some b, some c, some u, some d, some v =>
    if min (min (min a b) c) d ≤ 0 then ⟨none, none, none, some ErrKind.badInput⟩
    else
      let dt_h := (v - u) / 3600
      if dt_h ≤ 0 then ⟨none, none, none, some ErrKind.badDt⟩
      else
        let mean_scr := (c + d) / 2
        let d_scr := d - c
        if mean_scr ≤ 0 ∨ max_dscr_day ≤ 0 then ⟨none, none, none, some ErrKind.badParam⟩
        else
          ⟨some ((a * b / mean_scr) * (1 - (24 * d_scr) / (dt_h * max_dscr_day))),
           some d_scr, some dt_h, none⟩
  | _, _, _, _, _, _ => ⟨none, none, none, some ErrKind.badInput⟩

/-- `def dosing_band(g)` from `src/streamlit_app.py`, returning the
source's literal band strings. -/
def dosing_band (g : Option ℚ) : String :=
  match g with
  | none => "unknown"
  | some g =>
    if g ≥ 60 then "≥60 mL/min – standard dosing"
    else if g ≥ 30 then "30–59 mL/min – moderate reduction"
    else if g ≥ 15 then "15–29 mL/min – severe reduction"
    else if g ≥ 0 then "<15 mL/min – kidney failure range"
    else "near-zero – treat as anuric"

/-- The clamp `ke_disp = max(0.0, ke)` performed inside `interp`
(`src/streamlit_app.py`; `ke_display` in `src/app.py`); when `ke` is `None`
the interpreter returns early and no display value exists. -/
def interp_display_egfr (ke : Option ℚ) : Option ℚ :=
  match ke with
  | none => none
  | some k => some (max 0 k)

/-- The caller's dispatch on `err` after `chen_ke_gfr`
(`src/streamlit_app.py`, the `Compute KeGFR` button handler): `"bad_dt"`
gets the specific timestamp message, every other tag the generic one,
success no message. -/
def err_message : Option ErrKind → Option String
  | none => none
  | some ErrKind.badDt => some "Time of SCr2 must be after SCr1."
  | some _ => some "Unable to compute. Check values/units."

/-- Max ΔSCr/day mode selector (`"Fixed 1.5 mg/dL/day"` vs
`"Compute from weight (TBW)"`). -/
inductive MaxMode where
  | fixed : MaxMode
  | fromTBW : MaxMode
deriving DecidableEq, Repr

/-- The max-rise resolver, `src/streamlit_app.py` lines 143-152.  The
guard `not (crcl_ss and scr_ss and wt_tbw)` is Python truthiness: it fires
exactly when a value is `None` **or equal to 0** (a negative value is
truthy and falls through to the derivation). -/
def max_dscr_day (mode : MaxMode) (sex : Sex)
    (crcl_ss scr_ss wt_tbw : Option ℚ) : ℚ :=
  match mode with
  | MaxMode.fixed => 1.5
  | MaxMode.fromTBW =>
    match crcl_ss, scr_ss, wt_tbw with
    | some b, some a, some w =>
      if b = 0 ∨ a = 0 ∨ w = 0 then 1.5
      else
        let tbw := (if sex = Sex.Female then (0.5 : ℚ) else 0.6) * w
        let m := (a * b / tbw) * 1440 / 1000
        if m < 0.5 ∨ m > 5.0 then min (max m 0.5) 5.0 else m
    | _, _, _ => 1.5

/-- `def tbw_liters(sex_for_tbw, weight_for_tbw)` from `src/streamlit_app.py`. -/
def tbw_liters (sex : Sex) (wt : Option ℚ) : Option ℚ :=
  match wt with
  | none => none
  | some w =>
    if w ≤ 0 then none
    else some ((if sex = Sex.Female then (0.5 : ℚ) else 0.6) * w)

/-- `def fb_correct(scr, fb_l, tbw_l)` from `src/streamlit_app.py`:
returns `scr` unchanged (even when `None`) unless creatinine, TBW and FB
are all present and `tbw_l > 0`. -/
def fb_correct (scr fb_l tbw_l : Option ℚ) : Option ℚ :=
  match scr, tbw_l, fb_l with
  | some s, some t, some f =>
    if t ≤ 0 then some s else some (s * (1 + f / t))
  | _, _, _ => scr

/-! ## Shared lemmas -/

/-- The positive-inputs guard of `chen_ke_gfr` never fires when all four
creatinine/clearance scalars are strictly positive. -/
lemma chen_min_guard {a b c d : ℚ} (ha : 0 < a) (hb : 0 < b)
    (hc : 0 < c) (hd : 0 < d) : ¬ min (min (min a b) c) d ≤ 0 := by
  simp only [not_le, lt_min_iff]
  exact ⟨⟨⟨ha, hb⟩, hc⟩, hd⟩

/-- On the success path (positive scalars and parameter, `u < v`),
`chen_ke_gfr` returns exactly the Chen formula with no clamping. -/
lemma chen_eq_of_pos (a b c d u v m : ℚ)
    (ha : 0 < a) (hb : 0 < b) (hc : 0 < c) (hd : 0 < d)
    (hm : 0 < m) (ht : u < v) :
    chen_ke_gfr (some a) (some b) (some c) (some u) (some d) (some v) m =
      ⟨some ((a * b / ((c + d) / 2)) *
          (1 - (24 * (d - c)) / (((v - u) / 3600) * m))),
       some (d - c), some ((v - u) / 3600), none⟩ := by
  have hdt : ¬ (v - u) / 3600 ≤ 0 := by
    have : (0 : ℚ) < (v - u) / 3600 := by
      apply div_pos (by linarith) (by norm_num)
    linarith
  have hmean : ¬ ((c + d) / 2 ≤ 0 ∨ m ≤ 0) := by
    push_neg
    constructor
    · apply div_pos (by linarith) (by norm_num)
    · exact hm
  simp only [chen_ke_gfr, if_neg (chen_min_guard ha hb hc hd), if_neg hdt,
    if_neg hmean]

/-! ## Claims -/

/-- **C1.** For strictly positive `scr_ss`, `crcl_ss`, `scr1`, `scr2`,
`max_dscr_day` and `t2` strictly after `t1`, `chen_ke_gfr` succeeds
(`err = none`) and returns exactly
`(scr_ss * crcl_ss / mean) * (1 - 24*(scr2-scr1) / (dt_h * max))` with
`mean = (scr1+scr2)/2` and `dt_h = (t2-t1)/3600` hours — unclamped and
unrounded (the value may be negative). -/
theorem chen_ke_gfr_valid (a b c d u v m : ℚ)
    (ha : 0 < a) (hb : 0 < b) (hc : 0 < c) (hd : 0 < d)
    (hm : 0 < m) (ht : u < v) :
    chen_ke_gfr (some a) (some b) (some c) (some u) (some d) (some v) m =
      ⟨some ((a * b / ((c + d) / 2)) *
          (1 - (24 * (d - c)) / (((v - u) / 3600) * m))),
       some (d - c), some ((v - u) / 3600), none⟩ :=
  chen_eq_of_pos a b c d u v m ha hb hc hd hm ht

/-- Witness for C1: the spec's end-to-end example, SCr_ss = 1, CrCl_ss = 90,
SCr 1.0 → 1.3 over 12 h (43200 s), max rise 1.5/day. -/
theorem chen_ke_gfr_valid_witness :
    chen_ke_gfr (some 1) (some 90) (some 1) (some 0) (some 1.3) (some 43200)
        1.5 =
      ⟨some ((1 * 90 / ((1 + 1.3) / 2)) *
          (1 - (24 * (1.3 - 1)) / (((43200 - 0) / 3600) * 1.5))),
       some (1.3 - 1), some ((43200 - 0) / 3600), none⟩ :=
  chen_ke_gfr_valid 1 90 1 1.3 0 43200 1.5 (by norm_num) (by norm_num)
    (by norm_num) (by norm_num) (by norm_num) (by norm_num)

/-- **C2.** With all six inputs present and the four scalars strictly
positive, `chen_ke_gfr` reports the interval error (`bad_dt`, the spec's
`nonPositiveInterval`) iff `t2 ≤ t1`; and the caller's dispatch gives that
tag, and only it, the specific timestamp message. -/
theorem chen_ke_gfr_interval_iff (a b c d u v m : ℚ)
    (ha : 0 < a) (hb : 0 < b) (hc : 0 < c) (hd : 0 < d) :
    ((chen_ke_gfr (some a) (some b) (some c) (some u) (some d) (some v)
        m).err = some ErrKind.badDt ↔ v ≤ u) ∧
    err_message (some ErrKind.badDt) = some "Time of SCr2 must be after SCr1." ∧
    (∀ e : ErrKind, e ≠ ErrKind.badDt →
      err_message (some e) = some "Unable to compute. Check values/units.") := by
  refine ⟨?_, rfl, ?_⟩
  · by_cases hvu : v ≤ u
    · have hdt : (v - u) / 3600 ≤ 0 := by
        apply div_nonpos_of_nonpos_of_nonneg (by linarith) (by norm_num)
      simp only [chen_ke_gfr, if_neg (chen_min_guard ha hb hc hd), if_pos hdt]
      simp [hvu]
    · have hdt : ¬ (v - u) / 3600 ≤ 0 := by
        push_neg at hvu ⊢
        exact div_pos (by linarith) (by norm_num)
      simp only [chen_ke_gfr, if_neg (chen_min_guard ha hb hc hd), if_neg hdt]
      split_ifs <;> simp [hvu]
  · intro e he
    cases e <;> simp_all [err_message]

/-- Witness for C2: with positive scalars and `t2 = t1`, the result is the
interval error. -/
theorem chen_ke_gfr_interval_iff_witness :
    ((chen_ke_gfr (some 1) (some 90) (some 1) (some 100) (some 1.3)
        (some 100) 1.5).err = some ErrKind.badDt ↔ (100 : ℚ) ≤ 100) ∧
    err_message (some ErrKind.badDt) = some "Time of SCr2 must be after SCr1." ∧
    (∀ e : ErrKind, e ≠ ErrKind.badDt →
      err_message (some e) = some "Unable to compute. Check values/units.") :=
  chen_ke_gfr_interval_iff 1 90 1 1.3 100 100 1.5 (by norm_num) (by norm_num)
    (by norm_num) (by norm_num)

/-- **C3.** The interpreter's display value is `max(0, eGFR)` (nothing when
eGFR is absent), never negative, and `dosing_band` of the display value
follows the banding thresholds; an absent eGFR gives the `unknown` band.
The clamp lives only in `interp_display_egfr`: `chen_ke_gfr` itself returns
the raw value (see `chen_ke_gfr_valid`). -/
theorem interp_display_band :
    (∀ k : ℚ, interp_display_egfr (some k) = some (max 0 k)) ∧
    interp_display_egfr none = none ∧
    (∀ k e : ℚ, interp_display_egfr (some k) = some e → 0 ≤ e) ∧
    (∀ e : ℚ, 60 ≤ e →
      dosing_band (some e) = "≥60 mL/min – standard dosing") ∧
    (∀ e : ℚ, 30 ≤ e → e < 60 →
      dosing_band (some e) = "30–59 mL/min – moderate reduction") ∧
    (∀ e : ℚ, 15 ≤ e → e < 30 →
      dosing_band (some e) = "15–29 mL/min – severe reduction") ∧
    (∀ e : ℚ, 0 ≤ e → e < 15 →
      dosing_band (some e) = "<15 mL/min – kidney failure range") ∧
    dosing_band none = "unknown" := by
  refine ⟨fun k => rfl, rfl, ?_, ?_, ?_, ?_, ?_, rfl⟩
  · intro k e h
    simp only [interp_display_egfr, Option.some.injEq] at h
    exact h ▸ le_max_left 0 k
  · intro e h1
    simp only [dosing_band]
    rw [if_pos (by exact h1)]
  · intro e h1 h2
    simp only [dosing_band]
    rw [if_neg (by simp only [ge_iff_le, not_le]; linarith),
      if_pos (by exact h1)]
  · intro e h1 h2
    simp only [dosing_band]
    rw [if_neg (by simp only [ge_iff_le, not_le]; linarith),
      if_neg (by simp only [ge_iff_le, not_le]; linarith),
      if_pos (by exact h1)]
  · intro e h1 h2
    simp only [dosing_band]
    rw [if_neg (by simp only [ge_iff_le, not_le]; linarith),
      if_neg (by simp only [ge_iff_le, not_le]; linarith),
      if_neg (by simp only [ge_iff_le, not_le]; linarith),
      if_pos (by exact h1)]

/-- Witness for C3: concrete values exercise the clamp and every band. -/
theorem interp_display_band_witness :
    interp_display_egfr (some (-7)) = some (max 0 (-7)) ∧
    (0 : ℚ) ≤ max 0 (-7) ∧
    dosing_band (some 61) = "≥60 mL/min – standard dosing" ∧
    dosing_band (some 45) = "30–59 mL/min – moderate reduction" ∧
    dosing_band (some 20) = "15–29 mL/min – severe reduction" ∧
    dosing_band (some 7) = "<15 mL/min – kidney failure range" ∧
    dosing_band none = "unknown" :=
  ⟨interp_display_band.1 (-7),
   interp_display_band.2.2.1 (-7) (max 0 (-7)) (interp_display_band.1 (-7)),
   interp_display_band.2.2.2.1 61 (by norm_num),
   interp_display_band.2.2.2.2.1 45 (by norm_num) (by norm_num),
   interp_display_band.2.2.2.2.2.1 20 (by norm_num) (by norm_num),
   interp_display_band.2.2.2.2.2.2.1 7 (by norm_num) (by norm_num),
   interp_display_band.2.2.2.2.2.2.2⟩

/-- **C9.** For every combination of inputs (absent values and a
non-positive max-rise parameter included) `chen_ke_gfr` is total and
reports failure only through the typed `err` field: either it succeeds
with a numeric eGFR and `err = none`, or it returns no eGFR and one of the
three typed error tags. -/
theorem chen_ke_gfr_never_throws (s0 b0 c0 u0 d0 v0 : Option ℚ) (m : ℚ) :
    ((chen_ke_gfr s0 b0 c0 u0 d0 v0 m).err = none ∧
      ((chen_ke_gfr s0 b0 c0 u0 d0 v0 m).ke).isSome = true) ∨
    (((chen_ke_gfr s0 b0 c0 u0 d0 v0 m).ke = none) ∧
      ((chen_ke_gfr s0 b0 c0 u0 d0 v0 m).err = some ErrKind.badInput ∨
       (chen_ke_gfr s0 b0 c0 u0 d0 v0 m).err = some ErrKind.badDt ∨
       (chen_ke_gfr s0 b0 c0 u0 d0 v0 m).err = some ErrKind.badParam)) := by
  rcases s0 with _ | a <;> rcases b0 with _ | b <;> rcases c0 with _ | c <;>
    rcases u0 with _ | u <;> rcases d0 with _ | d <;> rcases v0 with _ | v <;>
    first
      | (right; exact ⟨rfl, Or.inl rfl⟩)
      | (simp only [chen_ke_gfr]; split_ifs <;> simp)

/-- **C5.** `cockcroft_gault` is `none` iff age, weight or creatinine is
missing or `≤ 0`; otherwise it is `((140 - age) * wt) / (72 * scr)`, times
`0.85` for Female; and for age `≥ 140` (positive weight/creatinine) it
returns the resulting non-positive value rather than `none`. -/
theorem cockcroft_gault_spec :
    (∀ (age : Option ℚ) (sex : Sex) (wt scr : Option ℚ),
      cockcroft_gault age sex wt scr = none ↔
        (age = none ∨ wt = none ∨ scr = none ∨
         ∃ a w s, age = some a ∧ wt = some w ∧ scr = some s ∧
           (a ≤ 0 ∨ w ≤ 0 ∨ s ≤ 0))) ∧
    (∀ a w s : ℚ, 0 < a → 0 < w → 0 < s →
      cockcroft_gault (some a) Sex.Male (some w) (some s) =
        some (((140 - a) * w) / (72 * s)) ∧
      cockcroft_gault (some a) Sex.Female (some w) (some s) =
        some ((((140 - a) * w) / (72 * s)) * 0.85)) ∧
    (∀ (a w s : ℚ) (sex : Sex), 140 ≤ a → 0 < w → 0 < s →
      ∃ v, cockcroft_gault (some a) sex (some w) (some s) = some v ∧
        v ≤ 0) := by
  refine ⟨?_, ?_, ?_⟩
  · intro age sex wt scr
    rcases age with _ | a <;> rcases wt with _ | w <;> rcases scr with _ | s <;>
      simp [cockcroft_gault]
    constructor
    · intro himp
      by_cases ha : 0 < a
      · by_cases hw : 0 < w
        · exact Or.inr (Or.inr (himp ha hw))
        · exact Or.inr (Or.inl (le_of_not_lt hw))
      · exact Or.inl (le_of_not_lt ha)
    · rintro (h | h | h) <;> intro ha hw <;> linarith
  · intro a w s ha hw hs
    have h : ¬(a ≤ 0 ∨ w ≤ 0 ∨ s ≤ 0) := by
      push_neg
      exact ⟨ha, hw, hs⟩
    constructor <;> simp [cockcroft_gault, if_neg h]
  · intro a w s sex h140 hw hs
    have h : ¬(a ≤ 0 ∨ w ≤ 0 ∨ s ≤ 0) := by
      push_neg
      refine ⟨by linarith, hw, hs⟩
    have hv : ((140 - a) * w) / (72 * s) ≤ 0 := by
      apply div_nonpos_of_nonpos_of_nonneg
      · nlinarith
      · positivity
    cases sex with
    | Male =>
      refine ⟨((140 - a) * w) / (72 * s), ?_, hv⟩
      simp [cockcroft_gault, if_neg h]
    | Female =>
      refine ⟨(((140 - a) * w) / (72 * s)) * 0.85, ?_, by nlinarith⟩
      simp [cockcroft_gault, if_neg h]

/-- Witness for C5: age 55 / 140, weight 70, creatinine 1. -/
theorem cockcroft_gault_spec_witness :
    (cockcroft_gault (some 55) Sex.Male (some 70) none = none ↔
      ((some 55 : Option ℚ) = none ∨ (some 70 : Option ℚ) = none ∨
       (none : Option ℚ) = none ∨
       ∃ a w s, (some 55 : Option ℚ) = some a ∧ (some 70 : Option ℚ) = some w ∧
         (none : Option ℚ) = some s ∧ (a ≤ 0 ∨ w ≤ 0 ∨ s ≤ 0))) ∧
    cockcroft_gault (some 55) Sex.Male (some 70) (some 1) =
      some (((140 - 55) * 70) / (72 * 1)) ∧
    (∃ v, cockcroft_gault (some 140) Sex.Male (some 70) (some 1) = some v ∧
      v ≤ 0) :=
  ⟨cockcroft_gault_spec.1 (some 55) Sex.Male (some 70) none,
   (cockcroft_gault_spec.2.1 55 70 1 (by norm_num) (by norm_num)
     (by norm_num)).1,
   cockcroft_gault_spec.2.2 140 70 1 Sex.Male (by norm_num) (by norm_num)
     (by norm_num)⟩

/-- **C6.** `fb_correct` is `creatinine * (1 + FB/TBW)` when all three are
present and `TBW > 0` (FB may be negative); it returns the creatinine
argument unchanged when creatinine, FB or TBW is absent or `TBW ≤ 0`; and
`FB = 0` is a no-op. -/
theorem fb_correct_spec :
    (∀ s f t : ℚ, 0 < t →
      fb_correct (some s) (some f) (some t) = some (s * (1 + f / t))) ∧
    (∀ scr fb tbw : Option ℚ,
      (scr = none ∨ fb = none ∨ tbw = none ∨ ∃ t, tbw = some t ∧ t ≤ 0) →
      fb_correct scr fb tbw = scr) ∧
    (∀ (s : ℚ) (tbw : Option ℚ), fb_correct (some s) (some 0) tbw = some s) := by
  refine ⟨?_, ?_, ?_⟩
  · intro s f t ht
    simp [fb_correct, if_neg (not_le.mpr ht)]
  · intro scr fb tbw h
    rcases scr with _ | s <;> rcases fb with _ | f <;> rcases tbw with _ | t <;>
      simp_all [fb_correct]
  · intro s tbw
    rcases tbw with _ | t
    · rfl
    · by_cases ht : t ≤ 0
      · simp [fb_correct, if_pos ht]
      · simp [fb_correct, if_neg ht]

/-- Witness for C6: creatinine 2, FB 3, TBW 40; an absent TBW; FB = 0. -/
theorem fb_correct_spec_witness :
    fb_correct (some 2) (some 3) (some 40) = some (2 * (1 + 3 / 40)) ∧
    fb_correct (some 2) (some 3) none = some 2 ∧
    fb_correct (some 2) (some 0) (some 40) = some 2 :=
  ⟨fb_correct_spec.1 2 3 40 (by norm_num),
   fb_correct_spec.2.1 (some 2) (some 3) none (Or.inr (Or.inr (Or.inl rfl))),
   fb_correct_spec.2.2 2 (some 40)⟩

/-- **C8.** Converting a positive value from µmol/L divides by
`UMOL_PER_MGDL = 88.4`; multiplying the converted value back by 88.4 and
converting as mg/dL returns the original value exactly; an absent value
converts to `none` for every unit. -/
theorem to_mgdl_roundtrip (x : ℚ) (hx : 0 < x) :
    UMOL_PER_MGDL = 88.4 ∧
    to_mgdl (some x) "µmol/L" = some (x / UMOL_PER_MGDL) ∧
    to_mgdl ((to_mgdl (some x) "µmol/L").map (fun y => y * UMOL_PER_MGDL))
        "mg/dL" = some x ∧
    (∀ u : String, to_mgdl none u = none) := by
  have h1 : to_mgdl (some x) "µmol/L" = some (x / UMOL_PER_MGDL) := by
    simp only [to_mgdl]
    rw [if_neg (by decide)]
  have hU : UMOL_PER_MGDL ≠ 0 := by norm_num [UMOL_PER_MGDL]
  refine ⟨rfl, h1, ?_, fun u => rfl⟩
  rw [h1, Option.map_some']
  simp only [to_mgdl]
  rw [if_true, div_mul_cancel₀ x hU]

/-- Witness for C8: the round trip at `x = 3`. -/
theorem to_mgdl_roundtrip_witness :
    UMOL_PER_MGDL = 88.4 ∧
    to_mgdl (some 3) "µmol/L" = some (3 / UMOL_PER_MGDL) ∧
    to_mgdl ((to_mgdl (some 3) "µmol/L").map (fun y => y * UMOL_PER_MGDL))
        "mg/dL" = some 3 ∧
    (∀ u : String, to_mgdl none u = none) :=
  to_mgdl_roundtrip 3 (by norm_num)

/-- **C7.** Holding steady-state creatinine, baseline clearance, `scr1`,
both timestamps and the max-rise parameter fixed (all preconditions
satisfied), a strictly larger `scr2` — hence a strictly larger
`delta = scr2 - scr1` — gives a strictly smaller eGFR. -/
theorem chen_ke_gfr_strict_anti (a b c u v m d e : ℚ)
    (ha : 0 < a) (hb : 0 < b) (hc : 0 < c) (hd : 0 < d) (he : 0 < e)
    (hm : 0 < m) (ht : u < v) (hde : d < e) :
    ∃ k k',
      (chen_ke_gfr (some a) (some b) (some c) (some u) (some d) (some v)
        m).ke = some k ∧
      (chen_ke_gfr (some a) (some b) (some c) (some u) (some e) (some v)
        m).ke = some k' ∧
      k' < k := by
  refine ⟨(a * b / ((c + d) / 2)) *
      (1 - (24 * (d - c)) / (((v - u) / 3600) * m)),
    (a * b / ((c + e) / 2)) *
      (1 - (24 * (e - c)) / (((v - u) / 3600) * m)), ?_, ?_, ?_⟩
  · rw [chen_eq_of_pos a b c d u v m ha hb hc hd hm ht]
  · rw [chen_eq_of_pos a b c e u v m ha hb hc he hm ht]
  · have hT : (0 : ℚ) < (v - u) / 3600 := div_pos (by linarith) (by norm_num)
    set T : ℚ := (v - u) / 3600 with hTdef
    have hTm : 0 < T * m := mul_pos hT hm
    have h1 : (0 : ℚ) < c + d := by linarith
    have h2 : (0 : ℚ) < c + e := by linarith
    have key : (a * b / ((c + d) / 2)) * (1 - (24 * (d - c)) / (T * m)) -
        (a * b / ((c + e) / 2)) * (1 - (24 * (e - c)) / (T * m)) =
        2 * a * b * (e - d) * (T * m + 48 * c) /
          ((c + d) * (c + e) * (T * m)) := by
      field_simp
      ring
    have hpos : 0 < 2 * a * b * (e - d) * (T * m + 48 * c) /
        ((c + d) * (c + e) * (T * m)) := by
      apply div_pos
      · have hed : (0 : ℚ) < e - d := by linarith
        have hnum : (0 : ℚ) < T * m + 48 * c := by linarith
        have := mul_pos (mul_pos (mul_pos (mul_pos
          (by norm_num : (0 : ℚ) < 2) ha) hb) hed) hnum
        linarith
      · exact mul_pos (mul_pos h1 h2) hTm
    rw [← key] at hpos
    linarith

/-- Witness for C7: SCr2 rising from 1.3 to 1.5 (same window, same inputs)
strictly lowers the eGFR. -/
theorem chen_ke_gfr_strict_anti_witness :
    ∃ k k',
      (chen_ke_gfr (some 1) (some 90) (some 1) (some 0) (some 1.3)
        (some 43200) 1.5).ke = some k ∧
      (chen_ke_gfr (some 1) (some 90) (some 1) (some 0) (some 1.5)
        (some 43200) 1.5).ke = some k' ∧
      k' < k :=
  chen_ke_gfr_strict_anti 1 90 1 0 43200 1.5 1.3 1.5 (by norm_num)
    (by norm_num) (by norm_num) (by norm_num) (by norm_num) (by norm_num)
    (by norm_num) (by norm_num)

/-- **C10.** Fluid-balance correction does not preserve the
`CreatinineReading` invariant `value > 0`: for positive creatinine and TBW,
any cumulative balance `FB ≤ -TBW` makes the corrected value `≤ 0`, and a
`chen_ke_gfr` call receiving that corrected value as a reading yields the
typed input error (no numeric eGFR), whatever the other arguments are. -/
theorem fb_correct_breaks_positivity (s fb t : ℚ)
    (hs : 0 < s) (ht : 0 < t) (hfb : fb ≤ -t) :
    ∃ c, fb_correct (some s) (some fb) (some t) = some c ∧ c ≤ 0 ∧
      ∀ (a b c1 u v : Option ℚ) (m : ℚ),
        chen_ke_gfr a b c1 u (some c) v m =
          ⟨none, none, none, some ErrKind.badInput⟩ := by
  have hdiv : fb / t ≤ -1 := by
    rw [div_le_iff₀ ht]
    linarith
  have hfac : 1 + fb / t ≤ 0 := by linarith
  have hc0 : s * (1 + fb / t) ≤ 0 := by
    nlinarith [mul_nonneg hs.le (neg_nonneg.mpr hfac)]
  refine ⟨s * (1 + fb / t), ?_, hc0, ?_⟩
  · simp [fb_correct, if_neg (not_le.mpr ht)]
  · intro a b c1 u v m
    rcases a with _ | a0 <;> rcases b with _ | b0 <;> rcases c1 with _ | c10 <;>
      rcases u with _ | u0 <;> rcases v with _ | v0 <;>
      first
        | rfl
        | (simp only [chen_ke_gfr]
           rw [if_pos (le_trans (min_le_right _ _) hc0)])

/-- Witness for C10: creatinine 1, TBW 42 L, cumulative balance -42 L. -/
theorem fb_correct_breaks_positivity_witness :
    ∃ c, fb_correct (some 1) (some (-42)) (some 42) = some c ∧ c ≤ 0 ∧
      ∀ (a b c1 u v : Option ℚ) (m : ℚ),
        chen_ke_gfr a b c1 u (some c) v m =
          ⟨none, none, none, some ErrKind.badInput⟩ :=
  fb_correct_breaks_positivity 1 (-42) 42 (by norm_num) (by norm_num)
    (by norm_num)

/-- With all three derived-mode inputs present and nonzero (Python
truthiness), the resolver always returns the clamp
`min (max derived 0.5) 5.0` of the body-water-derived value (the source's
conditional clamp is the identity inside the bounds). -/
lemma max_dscr_day_fromTBW_eq (sex : Sex) (b a w : ℚ)
    (hb : b ≠ 0) (ha : a ≠ 0) (hw : w ≠ 0) :
    max_dscr_day MaxMode.fromTBW sex (some b) (some a) (some w) =
      min (max ((a * b / ((if sex = Sex.Female then (0.5 : ℚ) else 0.6) * w))
        * 1440 / 1000) 0.5) 5.0 := by
  have hg : ¬(b = 0 ∨ a = 0 ∨ w = 0) := by
    push_neg
    exact ⟨hb, ha, hw⟩
  simp only [max_dscr_day, if_neg hg]
  by_cases h : (a * b / ((if sex = Sex.Female then (0.5 : ℚ) else 0.6) * w))
      * 1440 / 1000 < 0.5 ∨
      (a * b / ((if sex = Sex.Female then (0.5 : ℚ) else 0.6) * w))
      * 1440 / 1000 > 5.0
  · rw [if_pos h]
  · rw [if_neg h]
    push_neg at h
    rw [max_eq_left h.1, min_eq_left h.2]

/-- **C4 counterexample.** A *negative* baseline clearance is truthy in
Python, so the resolver does not fall back to the default 1.5: with
`crcl_ss = -10`, `scr_ss = 1`, weight 70 (Male), it derives
`(1 * -10 / 42) * 1440 / 1000 ≈ -0.34` and clamps it to `0.5 ≠ 1.5`. -/
theorem max_dscr_day_negative_not_default :
    max_dscr_day MaxMode.fromTBW Sex.Male (some (-10)) (some 1) (some 70)
      = 0.5 ∧ (0.5 : ℚ) ≠ 1.5 := by
  constructor
  · rw [max_dscr_day_fromTBW_eq Sex.Male (-10) 1 70 (by norm_num)
      (by norm_num) (by norm_num)]
    rw [if_neg (by decide : ¬(Sex.Male = Sex.Female))]
    norm_num [max_def, min_def]
  · norm_num

/-- **C4 (amended).** Fixed mode returns the constant 1.5 untouched; in
body-water-derived mode with all inputs present and nonzero the result is
the derived value `(scr_ss * crcl_ss / TBW) * 1440 / 1000`
(`TBW = 0.6*wt` Male, `0.5*wt` Female) clamped into `[0.5, 5.0]`; a
missing or *zero* input falls back to 1.5 (negative inputs do not — they
take the derived-and-clamped path, see the counterexample); and for
positive inputs the result always lies in `[0.5, 5.0]`. -/
theorem max_dscr_day_spec :
    (∀ (sex : Sex) (cr sc wt : Option ℚ),
      max_dscr_day MaxMode.fixed sex cr sc wt = 1.5) ∧
    (∀ (sex : Sex) (b a w : ℚ), b ≠ 0 → a ≠ 0 → w ≠ 0 →
      max_dscr_day MaxMode.fromTBW sex (some b) (some a) (some w) =
        min (max ((a * b /
          ((if sex = Sex.Female then (0.5 : ℚ) else 0.6) * w))
          * 1440 / 1000) 0.5) 5.0) ∧
    (∀ (sex : Sex) (cr sc wt : Option ℚ),
      (cr = none ∨ sc = none ∨ wt = none ∨
       cr = some 0 ∨ sc = some 0 ∨ wt = some 0) →
      max_dscr_day MaxMode.fromTBW sex cr sc wt = 1.5) ∧
    (∀ (sex : Sex) (b a w : ℚ), b ≠ 0 → a ≠ 0 → w ≠ 0 →
      0.5 ≤ max_dscr_day MaxMode.fromTBW sex (some b) (some a) (some w) ∧
      max_dscr_day MaxMode.fromTBW sex (some b) (some a) (some w) ≤ 5.0) := by
  refine ⟨fun sex cr sc wt => rfl, ?_, ?_, ?_⟩
  · intro sex b a w hb ha hw
    exact max_dscr_day_fromTBW_eq sex b a w hb ha hw
  · intro sex cr sc wt h
    rcases cr with _ | b <;> rcases sc with _ | a <;> rcases wt with _ | w <;>
      try rfl
    simp only [Option.some.injEq, reduceCtorEq, false_or] at h
    simp only [max_dscr_day]
    rw [if_pos h]
  · intro sex b a w hb ha hw
    rw [max_dscr_day_fromTBW_eq sex b a w hb ha hw]
    exact ⟨le_min (le_max_right _ _) (by norm_num), min_le_right _ _⟩

/-- Witness for C4 (amended), exercising every mode: fixed, derived with
all inputs nonzero, missing-input fallback, and the bounds. -/
theorem max_dscr_day_spec_witness :
    max_dscr_day MaxMode.fixed Sex.Male (some 90) (some 1) (some 70) = 1.5 ∧
    max_dscr_day MaxMode.fromTBW Sex.Male (some 90) (some 1) (some 70) =
      min (max ((1 * 90 /
        ((if Sex.Male = Sex.Female then (0.5 : ℚ) else 0.6) * 70))
        * 1440 / 1000) 0.5) 5.0 ∧
    max_dscr_day MaxMode.fromTBW Sex.Male none (some 1) (some 70) = 1.5 ∧
    (0.5 ≤ max_dscr_day MaxMode.fromTBW Sex.Female (some 90) (some 1)
        (some 70) ∧
      max_dscr_day MaxMode.fromTBW Sex.Female (some 90) (some 1) (some 70)
        ≤ 5.0) :=
  ⟨max_dscr_day_spec.1 Sex.Male (some 90) (some 1) (some 70),
   max_dscr_day_spec.2.1 Sex.Male 90 1 70 (by norm_num) (by norm_num)
     (by norm_num),
   max_dscr_day_spec.2.2.1 Sex.Male none (some 1) (some 70) (Or.inl rfl),
   max_dscr_day_spec.2.2.2 Sex.Female 90 1 70 (by norm_num) (by norm_num)
     (by norm_num)⟩
